import Mathlib

/-!
Verification development for a scheduled Toggl-to-Google-Drive export utility
(`src/main.py`).  The program reads configuration from the process environment,
fetches a CSV report from the Toggl Reports API, and upserts the CSV bytes into
Google Drive as a native spreadsheet, once under a fixed "latest" name and
optionally a second time under a date-stamped name.

The embedding below is a shallow model of that script:

* the process environment is a function `Env := String → Option String`;
* Python string truthiness, `str.strip`, `str.lower` and `int(...)` are
  modelled explicitly (`pyTruthy`, `pyStrip`, `pyLower`, `py_int`);
* `datetime.date` values are proleptic-Gregorian ordinals (`Nat`, day 1 =
  0001-01-01) bounded by Python's `date.min.toordinal() = 1` and
  `date.max.toordinal() = 3652059`; `iso_date` mirrors `strftime("%Y-%m-%d")`;
* the Toggl HTTP exchange is modelled by the response the server returns
  (`FetchResp`); `requests.raise_for_status` raises exactly for 4xx/5xx;
* the Google Drive service is modelled as a `DriveState` (a list of file
  resources in service order plus a fresh-identifier counter); every Drive
  API request the script issues is recorded as a `DriveCall`, so theorems can
  speak about which remote calls a run performs;
* `main` becomes `runMain`, a function of the environment, today's ordinal,
  the Toggl response and the initial Drive state, returning the final Drive
  state, the trace of Drive calls and either the list of stored-object
  descriptors reported on success or the first error raised.
-/

/-- The process environment: a partial map from variable names to values. -/
abbrev Env := String → Option String

/-- Python truthiness of an `Optional[str]`: `None` and `""` are falsy. -/
def pyTruthy (o : Option String) : Bool :=
  match o with
  | none => false
  | some s => !(s == "")

/-- ASCII whitespace stripped by Python's `str.strip()`. -/
def isPySpace (c : Char) : Bool :=
  c == ' ' || c == '\t' || c == '\n' || c == '\r' || c == '\x0b' || c == '\x0c'

/-- `str.strip()`: drop leading and trailing whitespace. -/
def pyStrip (s : String) : String :=
  String.mk (((s.toList.dropWhile isPySpace).reverse.dropWhile isPySpace).reverse)

/-- ASCII lowercasing of one character (`str.lower` restricted to ASCII). -/
def lowerChar (c : Char) : Char :=
  if 'A' ≤ c && c ≤ 'Z' then Char.ofNat (c.toNat + 32) else c

/-- `str.lower()` (ASCII fragment). -/
def pyLower (s : String) : String :=
  String.mk (s.toList.map lowerChar)

def isAsciiDigit (c : Char) : Bool :=
  '0' ≤ c && c ≤ '9'

/-- Digit run of a Python integer literal: digits, with single underscores
allowed between digits (`int("9_0") = 90`), accumulated into a value. -/
def digitsCore : List Char → Nat → Option Nat
  | [], acc => some acc
  | '_' :: c :: rest, acc =>
      if isAsciiDigit c then digitsCore rest (acc * 10 + (c.toNat - 48)) else none
  | c :: rest, acc =>
      if isAsciiDigit c then digitsCore rest (acc * 10 + (c.toNat - 48)) else none

/-- A nonempty digit run must start with a digit (no leading underscore). -/
def pyIntDigits : List Char → Option Nat
  | [] => none
  | c :: rest => if isAsciiDigit c then digitsCore rest (c.toNat - 48) else none

/-- Python `int(s)` on a string: strip whitespace, optional sign, digit run
with underscores; `none` models the `ValueError` raised on anything else. -/
def py_int (s : String) : Option Int :=
  match (pyStrip s).toList with
  | '+' :: rest => (pyIntDigits rest).map Int.ofNat
  | '-' :: rest => (pyIntDigits rest).map (fun n => -(Int.ofNat n))
  | rest => (pyIntDigits rest).map Int.ofNat

/-- `require_env` (src/main.py:35): return the value of an environment
variable, raising `RuntimeError` when it is unset or empty (`if not v`). -/
def require_env (env : Env) (name : String) : Except String String :=
  match env name with
  | none => Except.error ("Missing required env var: " ++ name)
  | some v =>
      if v == "" then Except.error ("Missing required env var: " ++ name)
      else Except.ok v

/-- `env_bool` (src/main.py:42): unset yields the default; otherwise the
stripped, lowercased value must be one of "1", "true", "yes", "y", "on". -/
def env_bool (env : Env) (name : String) (default : Bool) : Bool :=
  match env name with
  | none => default
  | some v => ["1", "true", "yes", "y", "on"].contains (pyLower (pyStrip v))

/-- Largest valid Python date ordinal (`date.max.toordinal()`). -/
def maxOrdinal : Nat := 3652059

/-- Civil (proleptic Gregorian) date from a Python date ordinal
(ordinal 1 = 0001-01-01), following the standard days-to-civil algorithm. -/
def civilFromOrdinal (ordn : Nat) : Nat × Nat × Nat :=
  let z := ordn + 305
  let era := z / 146097
  let doe := z % 146097
  let yoe := (doe - doe / 1460 + doe / 36524 - doe / 146096) / 365
  let y := yoe + era * 400
  let doy := doe - (365 * yoe + yoe / 4 - yoe / 100)
  let mp := (5 * doy + 2) / 153
  let d := doy - (153 * mp + 2) / 5 + 1
  let m := if mp < 10 then mp + 3 else mp - 9
  (if m ≤ 2 then y + 1 else y, m, d)

def pad2 (n : Nat) : String :=
  if n < 10 then "0" ++ toString n else toString n

def pad4 (n : Nat) : String :=
  if n < 10 then "000" ++ toString n
  else if n < 100 then "00" ++ toString n
  else if n < 1000 then "0" ++ toString n
  else toString n

/-- `iso_date` (src/main.py:49): `d.strftime("%Y-%m-%d")`. -/
def iso_date (ordn : Nat) : String :=
  let c := civilFromOrdinal ordn
  pad4 c.1 ++ "-" ++ pad2 c.2.1 ++ "-" ++ pad2 c.2.2

/-- `today - dt.timedelta(days=days)` on date ordinals: Python raises
`OverflowError` when the result falls outside `date.min .. date.max`. -/
def date_sub_days (ordn : Nat) (days : Int) : Except String Nat :=
  let r : Int := (ordn : Int) - days
  if 1 ≤ r ∧ r ≤ (maxOrdinal : Int) then Except.ok r.toNat
  else Except.error "OverflowError"

/-- `resolve_date_range` (src/main.py:53).  `todayOrd` is the ordinal of
`dt.date.today()`.  When both `START_DATE` and `END_DATE` are set and
non-empty they are returned verbatim; otherwise the window is
`int(os.environ.get("DAYS", "90"))` days back from today.  An error models
the `ValueError` of `int(...)` or the `OverflowError` of date arithmetic. -/
def resolve_date_range (env : Env) (todayOrd : Nat) : Except String (String × String) :=
  let start := env "START_DATE"
  let endv := env "END_DATE"
  if pyTruthy start && pyTruthy endv then
    Except.ok (start.getD "", endv.getD "")
  else
    match py_int ((env "DAYS").getD "90") with
    | none => Except.error "ValueError"
    | some days =>
        match date_sub_days todayOrd days with
        | Except.error e => Except.error e
        | Except.ok start_d => Except.ok (iso_date start_d, iso_date todayOrd)

/-- What the Toggl Reports endpoint returns for this run. -/
structure FetchResp where
  status : Nat
  body : List Nat
  deriving DecidableEq

/-- `fetch_toggl_csv` (src/main.py:68): issues one POST and calls
`r.raise_for_status()`, which raises exactly for 4xx/5xx statuses; on
success the raw body bytes are returned unmodified. -/
def fetch_toggl_csv (_workspace_id _toggl_api_token _start_date _end_date : String)
    (resp : FetchResp) : Except String (List Nat) :=
  if 400 ≤ resp.status && resp.status < 600 then Except.error "HTTPError"
  else Except.ok resp.body

/-- `GOOGLE_SHEETS_MIME` (src/main.py:29). -/
def GOOGLE_SHEETS_MIME : String := "application/vnd.google-apps.spreadsheet"

/-- A file resource held by the Drive service, in service-defined list
order.  Identifiers are modelled as naturals (the service's opaque non-empty
id strings); `webViewLink` is the service-assigned access link. -/
structure DriveFile where
  id : Nat
  name : String
  parents : List String
  mimeType : String
  content : List Nat
  trashed : Bool
  webViewLink : String
  deriving DecidableEq

/-- The fields the script requests back from create/update
(`fields="id,name,webViewLink"`). -/
structure Descriptor where
  id : Nat
  name : String
  webViewLink : String
  deriving DecidableEq

/-- The structured content of a `files().list` request as built by
`find_file_id_by_name`: an exact-name clause, a `trashed = false` clause,
an optional `'folder' in parents` clause, and a page size. -/
structure ListQuery where
  nameEquals : String
  excludeTrashed : Bool
  parentScope : Option String
  pageSize : Nat
  deriving DecidableEq

/-- The `body=` metadata of a `files().create` request (src/main.py:159):
`parents` is present only when a folder id was given and truthy. -/
structure CreateMetadata where
  name : String
  mimeType : String
  parents : Option (List String)
  deriving DecidableEq

/-- One Drive API request issued by the script.  An update carries only the
target id and the media bytes — no metadata and no MIME type. -/
inductive DriveCall where
  | list (q : ListQuery)
  | update (fileId : Nat) (media : List Nat)
  | create (metadata : CreateMetadata) (media : List Nat)
  deriving DecidableEq

/-- The Drive service: files in service order plus a fresh-id counter. -/
structure DriveState where
  files : List DriveFile
  nextId : Nat
  deriving DecidableEq

/-- Whether a file satisfies a list query. -/
def queryPred (q : ListQuery) (f : DriveFile) : Bool :=
  (f.name == q.nameEquals) && (!q.excludeTrashed || !f.trashed) &&
    (match q.parentScope with
     | some p => f.parents.contains p
     | none => true)

/-- The service's evaluation of a `files().list` call: the matching files in
service order, truncated to one page of `pageSize` results. -/
def evalList (st : DriveState) (q : ListQuery) : List DriveFile :=
  (st.files.filter (queryPred q)).take q.pageSize

/-- The query `find_file_id_by_name` builds (src/main.py:117): the
`'folder' in parents` clause is appended only under `if folder_id:`, i.e.
when the folder id is set and non-empty.  (The `name.replace("'", "\\'")`
escaping is serialization of the same name value into the query string; the
service matches on the unescaped name.) -/
def upsertQuery (name : String) (folder_id : Option String) : ListQuery :=
  { nameEquals := name
    excludeTrashed := true
    parentScope :=
      match folder_id with
      | some p => if p == "" then none else some p
      | none => none
    pageSize := 5 }

/-- The predicate a file must satisfy to be hit by the upsert lookup for
`(name, folder_id)`: exact name, not trashed, in the folder when one is
given (non-empty). -/
def activeMatch (name : String) (folder_id : Option String) (f : DriveFile) : Bool :=
  queryPred (upsertQuery name folder_id) f

/-- The active matches for `(name, folder_id)` in service order. -/
def matchList (st : DriveState) (name : String) (folder_id : Option String) :
    List DriveFile :=
  st.files.filter (activeMatch name folder_id)

/-- `find_file_id_by_name` (src/main.py:115): one `files().list` call with
`pageSize=5`; `None` when no file matched, else the id of the first match.
Also returns the Drive calls issued. -/
def find_file_id_by_name (st : DriveState) (name : String) (folder_id : Option String) :
    Option Nat × List DriveCall :=
  let q := upsertQuery name folder_id
  let files := evalList st q
  (files.head?.map DriveFile.id, [DriveCall.list q])

/-- Effect of `files().update(fileId=..., media_body=...)` on one file:
the content of the file with the given id is replaced, nothing else. -/
def updFun (fileId : Nat) (media : List Nat) (f : DriveFile) : DriveFile :=
  if f.id = fileId then { f with content := media } else f

/-- `files().update` (src/main.py:152): replace the content of the file with
the given id and return its descriptor (`fields="id,name,webViewLink"`). -/
def driveUpdate (st : DriveState) (fileId : Nat) (media : List Nat) :
    DriveState × Option Descriptor :=
  let files := st.files.map (updFun fileId media)
  ({ st with files := files },
   (files.find? (fun f => f.id == fileId)).map
     (fun f => { id := f.id, name := f.name, webViewLink := f.webViewLink }))

/-- Service-assigned web view link for a fresh file. -/
def mkLink (fileId : Nat) : String :=
  "https://drive.google.com/file/" ++ toString fileId

/-- `files().create` (src/main.py:163): a new file with a fresh identifier,
the metadata's name, parents and MIME type, and the media bytes as content
(the service converts CSV media into the target spreadsheet format on
ingest; the stored logical content is the uploaded payload). -/
def driveCreate (st : DriveState) (metadata : CreateMetadata) (media : List Nat) :
    DriveState × Descriptor :=
  let fid := st.nextId
  let f : DriveFile :=
    { id := fid
      name := metadata.name
      parents := metadata.parents.getD []
      mimeType := metadata.mimeType
      content := media
      trashed := false
      webViewLink := mkLink fid }
  ({ files := st.files ++ [f], nextId := fid + 1 },
   { id := fid, name := metadata.name, webViewLink := mkLink fid })

/-- The `body=` metadata built on the create path (src/main.py:159-161):
`{"name": sheet_name, "mimeType": GOOGLE_SHEETS_MIME}`, plus
`parents = [folder_id]` only under `if folder_id:`. -/
def upsertCreateMetadata (sheet_name : String) (folder_id : Option String) :
    CreateMetadata :=
  { name := sheet_name
    mimeType := GOOGLE_SHEETS_MIME
    parents :=
      match folder_id with
      | some p => if p == "" then none else some [p]
      | none => none }

/-- `upsert_csv_as_google_sheet` (src/main.py:137): look the name up; if a
file was found, overwrite its content under its existing id; otherwise
create a new file with CSV-to-spreadsheet conversion requested.  Returns
the new Drive state, the descriptor (as the script receives it) and the
trace of Drive calls issued. -/
def upsert_csv_as_google_sheet (st : DriveState) (csv_bytes : List Nat)
    (sheet_name : String) (folder_id : Option String) :
    DriveState × Option Descriptor × List DriveCall :=
  let found := find_file_id_by_name st sheet_name folder_id
  match found.1 with
  | some existing_id =>
      let r := driveUpdate st existing_id csv_bytes
      (r.1, r.2, found.2 ++ [DriveCall.update existing_id csv_bytes])
  | none =>
      let metadata := upsertCreateMetadata sheet_name folder_id
      let r := driveCreate st metadata csv_bytes
      (r.1, some r.2, found.2 ++ [DriveCall.create metadata csv_bytes])

/-- The required configuration keys read by `main` (src/main.py:176-178). -/
def requiredKeys : List String :=
  ["TOGGL_API_TOKEN", "TOGGL_WORKSPACE_ID", "GOOGLE_DRIVE_TOKEN"]

/-- `main` (src/main.py:174): read required configuration (fail-fast), read
the optional folder and dated-copy flag, resolve the date range, fetch the
Toggl CSV, then upsert a fixed-name "latest" copy and, when the flag is on,
a date-stamped copy.  Returns the final Drive state, the Drive calls issued
and either the descriptors written (in order) or the first error raised.
(The OAuth Drive client construction is abstracted away: the `DriveState`
argument stands for the authenticated service.) -/
def runMain (env : Env) (todayOrd : Nat) (resp : FetchResp) (st : DriveState) :
    DriveState × List DriveCall × Except String (List Descriptor) :=
  match require_env env "TOGGL_API_TOKEN" with
  | Except.error e => (st, [], Except.error e)
  | Except.ok toggl_api_token =>
  match require_env env "TOGGL_WORKSPACE_ID" with
  | Except.error e => (st, [], Except.error e)
  | Except.ok workspace_id =>
  match require_env env "GOOGLE_DRIVE_TOKEN" with
  | Except.error e => (st, [], Except.error e)
  | Except.ok _drive_token_json =>
  let folder_id := env "DRIVE_FOLDER_ID"
  let write_daily := env_bool env "WRITE_DAILY_COPY" true
  match resolve_date_range env todayOrd with
  | Except.error e => (st, [], Except.error e)
  | Except.ok range =>
  match fetch_toggl_csv workspace_id toggl_api_token range.1 range.2 resp with
  | Except.error e => (st, [], Except.error e)
  | Except.ok csv_bytes =>
  let r1 := upsert_csv_as_google_sheet st csv_bytes "toggl_time_entries_latest" folder_id
  match r1.2.1 with
  | none => (r1.1, r1.2.2, Except.error "HttpError")
  | some latest =>
    if write_daily then
      let daily_name := "toggl_time_entries_" ++ iso_date todayOrd
      let r2 := upsert_csv_as_google_sheet r1.1 csv_bytes daily_name folder_id
      match r2.2.1 with
      | none => (r2.1, r1.2.2 ++ r2.2.2, Except.error "HttpError")
      | some daily => (r2.1, r1.2.2 ++ r2.2.2, Except.ok [latest, daily])
    else
      (r1.1, r1.2.2, Except.ok [latest])

/-! ## Helper lemmas about the Drive model -/

theorem head?_take {α : Type} (l : List α) (n : Nat) (h : 0 < n) :
    (l.take n).head? = l.head? := by
  cases l with
  | nil => simp
  | cons a t =>
    cases n with
    | zero => exact absurd h (by simp)
    | succ m => simp

/-- The id the lookup returns is the id of the first active match. -/
theorem find_file_id_fst (st : DriveState) (name : String) (folder_id : Option String) :
    (find_file_id_by_name st name folder_id).1 =
      (matchList st name folder_id).head?.map DriveFile.id := by
  simp only [find_file_id_by_name, evalList, matchList, activeMatch]
  rw [head?_take _ _ (show 0 < (upsertQuery name folder_id).pageSize by simp [upsertQuery])]
  rfl

/-- The lookup issues exactly one `files().list` call. -/
theorem find_file_id_snd (st : DriveState) (name : String) (folder_id : Option String) :
    (find_file_id_by_name st name folder_id).2 =
      [DriveCall.list (upsertQuery name folder_id)] := rfl

theorem updFun_id (fileId : Nat) (media : List Nat) (f : DriveFile) :
    (updFun fileId media f).id = f.id := by
  unfold updFun; split <;> rfl

theorem updFun_name (fileId : Nat) (media : List Nat) (f : DriveFile) :
    (updFun fileId media f).name = f.name := by
  unfold updFun; split <;> rfl

theorem updFun_parents (fileId : Nat) (media : List Nat) (f : DriveFile) :
    (updFun fileId media f).parents = f.parents := by
  unfold updFun; split <;> rfl

theorem updFun_mimeType (fileId : Nat) (media : List Nat) (f : DriveFile) :
    (updFun fileId media f).mimeType = f.mimeType := by
  unfold updFun; split <;> rfl

theorem updFun_trashed (fileId : Nat) (media : List Nat) (f : DriveFile) :
    (updFun fileId media f).trashed = f.trashed := by
  unfold updFun; split <;> rfl

/-- A content overwrite does not change whether a file matches the lookup. -/
theorem activeMatch_updFun (name : String) (folder_id : Option String)
    (fileId : Nat) (media : List Nat) (f : DriveFile) :
    activeMatch name folder_id (updFun fileId media f) = activeMatch name folder_id f := by
  unfold activeMatch queryPred updFun
  split <;> rfl

/-- Content overwrites commute with the lookup filter. -/
theorem filter_map_updFun (files : List DriveFile) (name : String)
    (folder_id : Option String) (fileId : Nat) (media : List Nat) :
    (files.map (updFun fileId media)).filter (activeMatch name folder_id) =
      (files.filter (activeMatch name folder_id)).map (updFun fileId media) := by
  rw [List.filter_map]
  have hp : (activeMatch name folder_id ∘ updFun fileId media) = activeMatch name folder_id := by
    funext f
    simp [Function.comp, activeMatch_updFun]
  rw [hp]

/-- The file built on the create path for `(sheet_name, folder_id)`. -/
def createdFile (st : DriveState) (sheet_name : String) (folder_id : Option String)
    (csv_bytes : List Nat) : DriveFile :=
  { id := st.nextId
    name := sheet_name
    parents := (upsertCreateMetadata sheet_name folder_id).parents.getD []
    mimeType := GOOGLE_SHEETS_MIME
    content := csv_bytes
    trashed := false
    webViewLink := mkLink st.nextId }

/-- A freshly created file is hit by the lookup for the same name/folder. -/
theorem activeMatch_createdFile (st : DriveState) (sheet_name : String)
    (folder_id : Option String) (csv_bytes : List Nat) :
    activeMatch sheet_name folder_id (createdFile st sheet_name folder_id csv_bytes) = true := by
  unfold activeMatch queryPred createdFile upsertCreateMetadata upsertQuery
  cases folder_id with
  | none => simp
  | some p =>
    by_cases hp : p == ""
    · simp [hp]
    · simp [hp]

/-- Create-path unfolding of the upsert: when no active match exists, the
new file is appended, the fresh id counter advances, and the trace is one
list call followed by one create call carrying the built metadata. -/
theorem upsert_create_eq (st : DriveState) (csv_bytes : List Nat)
    (sheet_name : String) (folder_id : Option String)
    (h : matchList st sheet_name folder_id = []) :
    upsert_csv_as_google_sheet st csv_bytes sheet_name folder_id =
      ({ files := st.files ++ [createdFile st sheet_name folder_id csv_bytes]
         nextId := st.nextId + 1 },
       some { id := st.nextId, name := sheet_name, webViewLink := mkLink st.nextId },
       [DriveCall.list (upsertQuery sheet_name folder_id),
        DriveCall.create (upsertCreateMetadata sheet_name folder_id) csv_bytes]) := by
  have hf : (find_file_id_by_name st sheet_name folder_id).1 = none := by
    rw [find_file_id_fst, h]; rfl
  simp only [upsert_csv_as_google_sheet]
  rw [hf]
  simp [driveCreate, createdFile, upsertCreateMetadata, find_file_id_snd]

/-- Update-path unfolding of the upsert: when the first active match is
`f0`, only contents with id `f0.id` are rewritten and the trace is one list
call followed by one update call carrying only the id and the bytes. -/
theorem upsert_update_eq (st : DriveState) (csv_bytes : List Nat)
    (sheet_name : String) (folder_id : Option String) (f0 : DriveFile)
    (fs : List DriveFile)
    (h : matchList st sheet_name folder_id = f0 :: fs) :
    upsert_csv_as_google_sheet st csv_bytes sheet_name folder_id =
      ({ st with files := st.files.map (updFun f0.id csv_bytes) },
       ((st.files.map (updFun f0.id csv_bytes)).find? (fun f => f.id == f0.id)).map
         (fun f => { id := f.id, name := f.name, webViewLink := f.webViewLink }),
       [DriveCall.list (upsertQuery sheet_name folder_id),
        DriveCall.update f0.id csv_bytes]) := by
  have hf : (find_file_id_by_name st sheet_name folder_id).1 = some f0.id := by
    rw [find_file_id_fst, h]; rfl
  simp only [upsert_csv_as_google_sheet]
  rw [hf]
  simp [driveUpdate, find_file_id_snd]

/-- With service-unique ids, updating the id of a member file rewrites that
file and the update call's response descriptor is taken from it. -/
theorem find_map_upd (l : List DriveFile) (f0 : DriveFile) (media : List Nat)
    (hnd : (l.map DriveFile.id).Nodup) (hmem : f0 ∈ l) :
    (l.map (updFun f0.id media)).find? (fun f => f.id == f0.id) =
      some { f0 with content := media } := by
  induction l with
  | nil => exact absurd hmem (by simp)
  | cons g t ih =>
    rcases List.mem_cons.mp hmem with hg | ht
    · subst hg
      have hpos : ((updFun f0.id media f0).id == f0.id) = true := by
        rw [updFun_id]; exact beq_self_eq_true f0.id
      rw [List.map_cons, List.find?_cons, hpos]
      unfold updFun
      simp
    · have hne : g.id ≠ f0.id := by
        intro he
        have h1 : g.id ∉ t.map DriveFile.id := by
          have h2 := hnd
          simp only [List.map_cons, List.nodup_cons] at h2
          exact h2.1
        exact h1 (he ▸ List.mem_map.mpr ⟨f0, ht, rfl⟩)
      have hpred : ((updFun f0.id media g).id == f0.id) = false := by
        rw [updFun_id]; exact beq_eq_false_iff_ne.mpr hne
      rw [List.map_cons, List.find?_cons, hpred]
      exact ih (by simpa using (List.nodup_cons.mp (by simpa using hnd)).2) ht

/-! ## Claim theorems -/

/-- C5: the lookup issues exactly one `files().list` call whose query matches
precisely the non-trashed files whose display name equals `name`, restricted
to the folder when a non-empty folder id is provided and unrestricted when it
is absent; the request asks for a single page of at most 5 results, and that
single bounded page suffices: the returned id is the id of the first match in
full service order, with no further pagination. -/
theorem c5_lookup_query_semantics (st : DriveState) (name : String)
    (folder_id : Option String) :
    (find_file_id_by_name st name folder_id).2 =
      [DriveCall.list (upsertQuery name folder_id)] ∧
    (upsertQuery name folder_id).nameEquals = name ∧
    (upsertQuery name folder_id).excludeTrashed = true ∧
    (upsertQuery name folder_id).pageSize = 5 ∧
    (∀ f, activeMatch name folder_id f =
      ((f.name == name) && !f.trashed &&
        (match folder_id with
         | some p => if p == "" then true else f.parents.contains p
         | none => true))) ∧
    (find_file_id_by_name st name folder_id).1 =
      (st.files.filter (activeMatch name folder_id)).head?.map DriveFile.id := by
  refine ⟨find_file_id_snd st name folder_id, rfl, rfl, rfl, ?_, ?_⟩
  · intro f
    unfold activeMatch queryPred upsertQuery
    cases folder_id with
    | none => simp
    | some p =>
      by_cases hp : p == ""
      · simp [hp]
      · simp [hp]
  · exact find_file_id_fst st name folder_id

/-- C4: on the create path (no active match), the engine issues exactly one
creation call after the lookup; its metadata carries the display name, the
native-spreadsheet MIME type `GOOGLE_SHEETS_MIME` (requesting CSV-to-sheet
conversion on ingest), and the folder as the sole parent when a (non-empty)
folder id is given and no parents field when it is absent; the call carries
the payload bytes and returns a descriptor with the freshly assigned id. -/
theorem c4_create_request_shape (st : DriveState) (csv_bytes : List Nat)
    (sheet_name : String) (folder_id : Option String)
    (h : matchList st sheet_name folder_id = []) :
    (upsert_csv_as_google_sheet st csv_bytes sheet_name folder_id).2.2 =
      [DriveCall.list (upsertQuery sheet_name folder_id),
       DriveCall.create (upsertCreateMetadata sheet_name folder_id) csv_bytes] ∧
    (upsertCreateMetadata sheet_name folder_id).name = sheet_name ∧
    (upsertCreateMetadata sheet_name folder_id).mimeType = GOOGLE_SHEETS_MIME ∧
    (∀ p, folder_id = some p → ¬(p = "") →
      (upsertCreateMetadata sheet_name folder_id).parents = some [p]) ∧
    (folder_id = none → (upsertCreateMetadata sheet_name folder_id).parents = none) ∧
    (upsert_csv_as_google_sheet st csv_bytes sheet_name folder_id).2.1 =
      some { id := st.nextId, name := sheet_name, webViewLink := mkLink st.nextId } := by
  have e := upsert_create_eq st csv_bytes sheet_name folder_id h
  refine ⟨by rw [e], rfl, rfl, ?_, ?_, by rw [e]⟩
  · intro p hp hne
    subst hp
    simp [upsertCreateMetadata, hne]
  · intro hp
    subst hp
    rfl

/-- C2: the upsert decision rule.  With service-unique identifiers below the
fresh counter, a lookup with zero matches takes the create path: exactly one
new object is appended and its identifier differs from every prior
identifier in the store; a lookup with one or more matches takes the update
path on the first match in service order: no object is created (the file
list keeps its length, only contents with the first match's id change) and
the trace shows an update call, not a create call. -/
theorem c2_upsert_decision_rule (st : DriveState) (csv_bytes : List Nat)
    (sheet_name : String) (folder_id : Option String)
    (hwf : ∀ f ∈ st.files, f.id < st.nextId) :
    (matchList st sheet_name folder_id = [] →
      (upsert_csv_as_google_sheet st csv_bytes sheet_name folder_id).1.files =
        st.files ++ [createdFile st sheet_name folder_id csv_bytes] ∧
      (upsert_csv_as_google_sheet st csv_bytes sheet_name folder_id).1.files.length =
        st.files.length + 1 ∧
      (∃ d, (upsert_csv_as_google_sheet st csv_bytes sheet_name folder_id).2.1 = some d ∧
        d.id = st.nextId ∧ ∀ f ∈ st.files, f.id ≠ d.id)) ∧
    (∀ f0 fs, matchList st sheet_name folder_id = f0 :: fs →
      (upsert_csv_as_google_sheet st csv_bytes sheet_name folder_id).1.files =
        st.files.map (updFun f0.id csv_bytes) ∧
      (upsert_csv_as_google_sheet st csv_bytes sheet_name folder_id).1.files.length =
        st.files.length ∧
      (upsert_csv_as_google_sheet st csv_bytes sheet_name folder_id).2.2 =
        [DriveCall.list (upsertQuery sheet_name folder_id),
         DriveCall.update f0.id csv_bytes]) := by
  constructor
  · intro h
    have e := upsert_create_eq st csv_bytes sheet_name folder_id h
    refine ⟨by rw [e], by rw [e]; simp, ?_⟩
    refine ⟨{ id := st.nextId, name := sheet_name, webViewLink := mkLink st.nextId },
      by rw [e], rfl, ?_⟩
    intro f hf
    exact Nat.ne_of_lt (hwf f hf)
  · intro f0 fs h
    have e := upsert_update_eq st csv_bytes sheet_name folder_id f0 fs h
    exact ⟨by rw [e], by rw [e]; simp, by rw [e]⟩

/-- C3: the update path is a pure content overwrite.  When the lookup finds
an existing object (first match `f0`), the single update call carries only
the existing identifier and the payload bytes (no metadata, no MIME type,
hence no conversion request); afterwards every file keeps its identifier,
name, parents, MIME type and trashed flag, files with other identifiers keep
their content, and the returned descriptor carries the existing identifier
(and unchanged name and link). -/
theorem c3_update_frame (st : DriveState) (csv_bytes : List Nat)
    (sheet_name : String) (folder_id : Option String) (f0 : DriveFile)
    (fs : List DriveFile)
    (hnd : (st.files.map DriveFile.id).Nodup)
    (h : matchList st sheet_name folder_id = f0 :: fs) :
    (upsert_csv_as_google_sheet st csv_bytes sheet_name folder_id).1.files =
      st.files.map (updFun f0.id csv_bytes) ∧
    ((upsert_csv_as_google_sheet st csv_bytes sheet_name folder_id).1.files.map
        (fun f => (f.id, f.name, f.parents, f.mimeType, f.trashed)) =
      st.files.map (fun f => (f.id, f.name, f.parents, f.mimeType, f.trashed))) ∧
    (∀ f, ¬(f.id = f0.id) → updFun f0.id csv_bytes f = f) ∧
    (upsert_csv_as_google_sheet st csv_bytes sheet_name folder_id).2.1 =
      some { id := f0.id, name := f0.name, webViewLink := f0.webViewLink } ∧
    (upsert_csv_as_google_sheet st csv_bytes sheet_name folder_id).2.2 =
      [DriveCall.list (upsertQuery sheet_name folder_id),
       DriveCall.update f0.id csv_bytes] := by
  have e := upsert_update_eq st csv_bytes sheet_name folder_id f0 fs h
  have hmem : f0 ∈ st.files := by
    have h1 : f0 ∈ matchList st sheet_name folder_id := by rw [h]; simp
    exact (List.mem_filter.mp h1).1
  refine ⟨by rw [e], ?_, ?_, ?_, by rw [e]⟩
  · rw [e]
    simp only [List.map_map]
    congr 1
    funext f
    simp [Function.comp, updFun_id, updFun_name, updFun_parents, updFun_mimeType,
      updFun_trashed]
  · intro f hf
    unfold updFun
    simp [hf]
  · rw [e, find_map_upd st.files f0 csv_bytes hnd hmem]
    rfl

theorem updFun_self (media : List Nat) (f : DriveFile) :
    updFun f.id media f = { f with content := media } := by
  unfold updFun
  simp

/-- After one upsert on a state with at most one active match, the name has
exactly one active match whose content is the uploaded payload. -/
theorem upsert_once_unique (st : DriveState) (csv_bytes : List Nat)
    (sheet_name : String) (folder_id : Option String)
    (h : (matchList st sheet_name folder_id).length ≤ 1) :
    ∃ g, matchList (upsert_csv_as_google_sheet st csv_bytes sheet_name folder_id).1
        sheet_name folder_id = [g] ∧ g.content = csv_bytes := by
  cases hm : matchList st sheet_name folder_id with
  | nil =>
    have e := upsert_create_eq st csv_bytes sheet_name folder_id hm
    refine ⟨createdFile st sheet_name folder_id csv_bytes, ?_, rfl⟩
    rw [e]
    show (st.files ++ [createdFile st sheet_name folder_id csv_bytes]).filter
        (activeMatch sheet_name folder_id) = _
    rw [List.filter_append]
    have h1 : st.files.filter (activeMatch sheet_name folder_id) = [] := hm
    rw [h1]
    simp [activeMatch_createdFile]
  | cons f0 fs =>
    have hfs : fs = [] := by
      have := h
      rw [hm] at this
      simpa using this
    subst hfs
    have e := upsert_update_eq st csv_bytes sheet_name folder_id f0 [] hm
    refine ⟨{ f0 with content := csv_bytes }, ?_, rfl⟩
    rw [e]
    show (st.files.map (updFun f0.id csv_bytes)).filter (activeMatch sheet_name folder_id) = _
    rw [filter_map_updFun]
    have h1 : st.files.filter (activeMatch sheet_name folder_id) = [f0] := hm
    rw [h1, List.map_singleton, updFun_self]

/-- C1 (amended): upsert is idempotent by name provided the initial state
has at most one active object of that name in that container (the spec's
own invariant, §3).  Then two sequential upserts with payloads `p1`, `p2`
leave exactly one active object with that name there, its content is the
second payload, and the second call updates rather than creates (the file
count does not grow between the first and second call).  Without the
at-most-one precondition the claim fails; see the counterexample. -/
theorem c1_upsert_idempotent_by_name (st : DriveState) (p1 p2 : List Nat)
    (sheet_name : String) (folder_id : Option String)
    (h : (matchList st sheet_name folder_id).length ≤ 1) :
    (∃ g, matchList (upsert_csv_as_google_sheet
          (upsert_csv_as_google_sheet st p1 sheet_name folder_id).1
          p2 sheet_name folder_id).1 sheet_name folder_id = [g] ∧
        g.content = p2) ∧
    (upsert_csv_as_google_sheet
        (upsert_csv_as_google_sheet st p1 sheet_name folder_id).1
        p2 sheet_name folder_id).1.files.length =
      (upsert_csv_as_google_sheet st p1 sheet_name folder_id).1.files.length := by
  obtain ⟨g1, hg1, _⟩ := upsert_once_unique st p1 sheet_name folder_id h
  have h1 : (matchList (upsert_csv_as_google_sheet st p1 sheet_name folder_id).1
      sheet_name folder_id).length ≤ 1 := by rw [hg1]; simp
  refine ⟨upsert_once_unique _ p2 sheet_name folder_id h1, ?_⟩
  have e := upsert_update_eq (upsert_csv_as_google_sheet st p1 sheet_name folder_id).1
    p2 sheet_name folder_id g1 [] hg1
  rw [e]
  simp

def c1DupFileA : DriveFile :=
  { id := 0, name := "report", parents := [], mimeType := "text/csv",
    content := [9], trashed := false, webViewLink := "L0" }

def c1DupFileB : DriveFile :=
  { id := 1, name := "report", parents := [], mimeType := "text/csv",
    content := [9], trashed := false, webViewLink := "L1" }

/-- A storage state that already holds two active objects named "report". -/
def c1DupState : DriveState := { files := [c1DupFileA, c1DupFileB], nextId := 2 }

/-- C1 (counterexample): the claim quantifies over every storage state, but
starting from a state with two active objects named "report", two sequential
upserts of that name leave two active objects of that name, not exactly one
— the engine only ever updates the first match and never removes the
duplicate. -/
theorem c1_counterexample :
    (matchList (upsert_csv_as_google_sheet
        (upsert_csv_as_google_sheet c1DupState [1] "report" none).1
        [2] "report" none).1 "report" none).length = 2 := by decide

/-- C1 witness: a state holding a single active "report" object satisfies
the at-most-one hypothesis, and the two upserts end with one object whose
content is the second payload. -/
def c1OneState : DriveState := { files := [c1DupFileA], nextId := 1 }

theorem c1_witness :
    (∃ g, matchList (upsert_csv_as_google_sheet
          (upsert_csv_as_google_sheet c1OneState [1] "report" none).1
          [2] "report" none).1 "report" none = [g] ∧
        g.content = [2]) ∧
    (upsert_csv_as_google_sheet
        (upsert_csv_as_google_sheet c1OneState [1] "report" none).1
        [2] "report" none).1.files.length =
      (upsert_csv_as_google_sheet c1OneState [1] "report" none).1.files.length :=
  c1_upsert_idempotent_by_name c1OneState [1] [2] "report" none (by decide)

/-- C2 witness state: an empty store with fresh counter 0. -/
def c2WState : DriveState := { files := [], nextId := 0 }

theorem c2_witness :
    ((upsert_csv_as_google_sheet c2WState [7] "report" none).1.files =
        c2WState.files ++ [createdFile c2WState "report" none [7]] ∧
      (upsert_csv_as_google_sheet c2WState [7] "report" none).1.files.length =
        c2WState.files.length + 1 ∧
      (∃ d, (upsert_csv_as_google_sheet c2WState [7] "report" none).2.1 = some d ∧
        d.id = c2WState.nextId ∧ ∀ f ∈ c2WState.files, f.id ≠ d.id)) :=
  (c2_upsert_decision_rule c2WState [7] "report" none (by decide)).1 (by decide)

/-- C3 witness state: one active "report" file with id 5. -/
def c3WFile : DriveFile :=
  { id := 5, name := "report", parents := ["F1"], mimeType := GOOGLE_SHEETS_MIME,
    content := [9], trashed := false, webViewLink := "L5" }

def c3WState : DriveState := { files := [c3WFile], nextId := 6 }

theorem c3_witness :
    (upsert_csv_as_google_sheet c3WState [7] "report" none).1.files =
      c3WState.files.map (updFun c3WFile.id [7]) ∧
    ((upsert_csv_as_google_sheet c3WState [7] "report" none).1.files.map
        (fun f => (f.id, f.name, f.parents, f.mimeType, f.trashed)) =
      c3WState.files.map (fun f => (f.id, f.name, f.parents, f.mimeType, f.trashed))) ∧
    (∀ f, ¬(f.id = c3WFile.id) → updFun c3WFile.id [7] f = f) ∧
    (upsert_csv_as_google_sheet c3WState [7] "report" none).2.1 =
      some { id := c3WFile.id, name := c3WFile.name, webViewLink := c3WFile.webViewLink } ∧
    (upsert_csv_as_google_sheet c3WState [7] "report" none).2.2 =
      [DriveCall.list (upsertQuery "report" none), DriveCall.update c3WFile.id [7]] :=
  c3_update_frame c3WState [7] "report" none c3WFile [] (by decide) (by decide)

/-- C4 witness state: an empty store, target folder "F1". -/
def c4WState : DriveState := { files := [], nextId := 0 }

theorem c4_witness :
    (upsert_csv_as_google_sheet c4WState [7] "toggl_time_entries_latest" (some "F1")).2.2 =
      [DriveCall.list (upsertQuery "toggl_time_entries_latest" (some "F1")),
       DriveCall.create (upsertCreateMetadata "toggl_time_entries_latest" (some "F1")) [7]] ∧
    (upsertCreateMetadata "toggl_time_entries_latest" (some "F1")).name =
      "toggl_time_entries_latest" ∧
    (upsertCreateMetadata "toggl_time_entries_latest" (some "F1")).mimeType =
      GOOGLE_SHEETS_MIME ∧
    (∀ p, (some "F1" : Option String) = some p → ¬(p = "") →
      (upsertCreateMetadata "toggl_time_entries_latest" (some "F1")).parents = some [p]) ∧
    ((some "F1" : Option String) = none →
      (upsertCreateMetadata "toggl_time_entries_latest" (some "F1")).parents = none) ∧
    (upsert_csv_as_google_sheet c4WState [7] "toggl_time_entries_latest" (some "F1")).2.1 =
      some { id := c4WState.nextId, name := "toggl_time_entries_latest",
             webViewLink := mkLink c4WState.nextId } :=
  c4_create_request_shape c4WState [7] "toggl_time_entries_latest" (some "F1") (by decide)

/-- Environment refuting C7: no explicit overrides and a non-numeric
look-back window value. -/
def c7Env : Env := fun k => if k = "DAYS" then some "abc" else none

/-- C7 (counterexample): the claim says the Date Range Resolver never fails
for any environment configuration, but with `DAYS` set to the non-numeric
string "abc" (and no explicit overrides) `int(os.environ.get("DAYS","90"))`
raises `ValueError` instead of returning a pair. -/
theorem c7_counterexample :
    resolve_date_range c7Env 738886 = Except.error "ValueError" := by rfl

/-- C7 (amended): the resolver succeeds exactly when both explicit overrides
are supplied and non-empty, or the look-back window value (defaulting to
"90" when unset) parses as a Python integer `N` such that `today − N` days
is still a representable calendar date.  In particular it cannot fail when
the overrides are set, or when `DAYS` is unset or a reasonable integer. -/
theorem c7_resolver_total_iff (env : Env) (todayOrd : Nat) :
    (∃ p, resolve_date_range env todayOrd = Except.ok p) ↔
      ((pyTruthy (env "START_DATE") && pyTruthy (env "END_DATE")) = true ∨
       ∃ N, py_int ((env "DAYS").getD "90") = some N ∧
         1 ≤ (todayOrd : Int) - N ∧ (todayOrd : Int) - N ≤ (maxOrdinal : Int)) := by
  simp only [resolve_date_range, date_sub_days]
  by_cases hb : (pyTruthy (env "START_DATE") && pyTruthy (env "END_DATE")) = true
  · simp [hb]
  · simp only [hb, Bool.false_eq_true, if_false, false_or]
    cases hp : py_int ((env "DAYS").getD "90") with
    | none => simp
    | some days =>
      dsimp only
      by_cases hr : 1 ≤ (todayOrd : Int) - days ∧ (todayOrd : Int) - days ≤ (maxOrdinal : Int)
      · rw [if_pos hr]
        constructor
        · intro _
          exact ⟨days, rfl, hr.1, hr.2⟩
        · intro _
          exact ⟨(iso_date ((todayOrd : Int) - days).toNat, iso_date todayOrd), rfl⟩
      · rw [if_neg hr]
        constructor
        · rintro ⟨p, hcontra⟩
          simp at hcontra
        · rintro ⟨N, hN, h1, h2⟩
          cases hN
          exact absurd ⟨h1, h2⟩ hr

/-- Environment refuting C8: no overrides and an integer window so large
that `today − N` underflows the calendar. -/
def c8Env : Env := fun k => if k = "DAYS" then some "4000000" else none

/-- C8 (counterexample): the claim says that whenever the overrides are not
both supplied, the resolver returns `(today − N, today)`; but with
`DAYS = "4000000"` (a valid integer) and today = ordinal 738886 (2024-01-01)
the date subtraction raises `OverflowError`, so nothing is returned.  (With
`DAYS = "abc"` it likewise raises `ValueError`.) -/
theorem c8_counterexample :
    resolve_date_range c8Env 738886 = Except.error "OverflowError" := by rfl

/-- C8 (amended): whenever the overrides are not both supplied and
non-empty, and the configured look-back value (the `DAYS` variable,
defaulting to "90" when unset) parses as an integer `N` with `today − N`
representable, the resolver returns `end = today` and `start = today − N`
days, so `end − start = N` days. -/
theorem c8_rolling_window (env : Env) (todayOrd : Nat) (N : Int)
    (hov : (pyTruthy (env "START_DATE") && pyTruthy (env "END_DATE")) = false)
    (hN : py_int ((env "DAYS").getD "90") = some N)
    (h1 : 1 ≤ (todayOrd : Int) - N) (h2 : (todayOrd : Int) - N ≤ (maxOrdinal : Int)) :
    resolve_date_range env todayOrd =
      Except.ok (iso_date ((todayOrd : Int) - N).toNat, iso_date todayOrd) ∧
    ((((todayOrd : Int) - N).toNat : Int) = (todayOrd : Int) - N) := by
  constructor
  · simp only [resolve_date_range, date_sub_days]
    rw [hov]
    simp only [Bool.false_eq_true, if_false]
    rw [hN]
    dsimp only
    rw [if_pos ⟨h1, h2⟩]
  · exact Int.toNat_of_nonneg (by omega)

/-- C8 witness: with an empty environment the window defaults to 90 days and
2024-01-01 resolves to the range 2023-10-03 .. 2024-01-01. -/
def c8WEnv : Env := fun _ => none

theorem c8_witness :
    resolve_date_range c8WEnv 738886 =
      Except.ok (iso_date ((738886 : Int) - 90).toNat, iso_date 738886) ∧
    ((((738886 : Int) - 90).toNat : Int) = (738886 : Int) - 90) :=
  c8_rolling_window c8WEnv 738886 90 (by rfl) (by rfl) (by decide) (by decide)

/-- `require_env` either fails with the fixed message because the variable
is unset or empty, or succeeds with its non-empty value. -/
theorem require_env_cases (env : Env) (n : String) :
    (require_env env n = Except.error ("Missing required env var: " ++ n) ∧
      (env n = none ∨ env n = some "")) ∨
    (∃ v, require_env env n = Except.ok v ∧ env n = some v ∧ ¬(v = "")) := by
  unfold require_env
  cases h : env n with
  | none => left; simp
  | some v =>
    by_cases hv : v = ""
    · subst hv
      left
      simp
    · right
      refine ⟨v, ?_, rfl, hv⟩
      dsimp only
      rw [if_neg (by simpa using hv)]

/-- C6: whenever the Toggl export endpoint answers with a non-success
(4xx/5xx) status, the run terminates with an error, the Drive state is
unchanged and the Drive-call trace is empty: no lookup, create or update is
attempted and no stored object is created or updated.  (The conclusion also
covers runs that abort even earlier, on configuration, before consulting
the response.) -/
theorem c6_fetch_failure_propagation (env : Env) (todayOrd : Nat) (resp : FetchResp)
    (st : DriveState) (h4 : 400 ≤ resp.status) (h6 : resp.status < 600) :
    ∃ e, runMain env todayOrd resp st = (st, [], Except.error e) := by
  have hfetch : ∀ a b c d, fetch_toggl_csv a b c d resp = Except.error "HTTPError" := by
    intro a b c d
    unfold fetch_toggl_csv
    rw [if_pos (by simp [h4, h6])]
  simp only [runMain]
  split
  · exact ⟨_, rfl⟩
  · split
    · exact ⟨_, rfl⟩
    · split
      · exact ⟨_, rfl⟩
      · split
        · exact ⟨_, rfl⟩
        · rw [hfetch]
          exact ⟨"HTTPError", rfl⟩

/-- C6 witness: a fully configured environment whose export fetch answers
404 leaves the (empty) store untouched, issues no Drive call and fails. -/
def c6WEnv : Env := fun k =>
  if k = "TOGGL_API_TOKEN" then some "t"
  else if k = "TOGGL_WORKSPACE_ID" then some "w"
  else if k = "GOOGLE_DRIVE_TOKEN" then some "g"
  else none

theorem c6_witness :
    (400 ≤ 404 ∧ 404 < 600) ∧
    ∃ e, runMain c6WEnv 738886 { status := 404, body := [] } { files := [], nextId := 0 } =
      ({ files := [], nextId := 0 }, [], Except.error e) :=
  ⟨⟨by decide, by decide⟩,
   c6_fetch_failure_propagation c6WEnv 738886 { status := 404, body := [] }
     { files := [], nextId := 0 } (by decide) (by decide)⟩

/-- C9: each of the three required configuration keys is checked with the
empty string treated like an unset variable; if any required key is unset
or empty the run fails with a configuration error for a (first such)
required key, no Drive call is issued, the store is untouched, and the
result does not depend on the export response — the error precedes all
network activity. -/
theorem c9_required_config_empty_as_missing (env : Env) (todayOrd : Nat)
    (resp : FetchResp) (st : DriveState) (k : String) (hk : k ∈ requiredKeys)
    (hmiss : env k = none ∨ env k = some "") :
    ∃ kk, kk ∈ requiredKeys ∧ (env kk = none ∨ env kk = some "") ∧
      runMain env todayOrd resp st =
        (st, [], Except.error ("Missing required env var: " ++ kk)) := by
  rcases require_env_cases env "TOGGL_API_TOKEN" with ⟨h1, hm1⟩ | ⟨v1, h1, hv1, hne1⟩
  · refine ⟨"TOGGL_API_TOKEN", by simp [requiredKeys], hm1, ?_⟩
    simp only [runMain]
    rw [h1]
  · rcases require_env_cases env "TOGGL_WORKSPACE_ID" with ⟨h2, hm2⟩ | ⟨v2, h2, hv2, hne2⟩
    · refine ⟨"TOGGL_WORKSPACE_ID", by simp [requiredKeys], hm2, ?_⟩
      simp only [runMain]
      rw [h1, h2]
    · rcases require_env_cases env "GOOGLE_DRIVE_TOKEN" with ⟨h3, hm3⟩ | ⟨v3, h3, hv3, hne3⟩
      · refine ⟨"GOOGLE_DRIVE_TOKEN", by simp [requiredKeys], hm3, ?_⟩
        simp only [runMain]
        rw [h1, h2, h3]
      · exfalso
        have hk3 : k = "TOGGL_API_TOKEN" ∨ k = "TOGGL_WORKSPACE_ID" ∨
            k = "GOOGLE_DRIVE_TOKEN" := by simpa [requiredKeys] using hk
        rcases hk3 with hk3 | hk3 | hk3 <;> subst hk3
        · rcases hmiss with hmiss | hmiss <;> rw [hmiss] at hv1
          · cases hv1
          · exact hne1 (by injection hv1 with h; exact h.symm)
        · rcases hmiss with hmiss | hmiss <;> rw [hmiss] at hv2
          · cases hv2
          · exact hne2 (by injection hv2 with h; exact h.symm)
        · rcases hmiss with hmiss | hmiss <;> rw [hmiss] at hv3
          · cases hv3
          · exact hne3 (by injection hv3 with h; exact h.symm)

/-- C9 witness: the workspace id set to the empty string is rejected like a
missing variable, before any network activity, with the store untouched. -/
def c9WEnv : Env := fun k =>
  if k = "TOGGL_API_TOKEN" then some "t"
  else if k = "TOGGL_WORKSPACE_ID" then some ""
  else none

theorem c9_witness :
    ("TOGGL_WORKSPACE_ID" ∈ requiredKeys ∧
      (c9WEnv "TOGGL_WORKSPACE_ID" = none ∨ c9WEnv "TOGGL_WORKSPACE_ID" = some "")) ∧
    ∃ kk, kk ∈ requiredKeys ∧ (c9WEnv kk = none ∨ c9WEnv kk = some "") ∧
      runMain c9WEnv 738886 { status := 200, body := [] } { files := [], nextId := 0 } =
        ({ files := [], nextId := 0 }, [],
         Except.error ("Missing required env var: " ++ kk)) :=
  ⟨⟨by decide, by decide⟩,
   c9_required_config_empty_as_missing c9WEnv 738886 { status := 200, body := [] }
     { files := [], nextId := 0 } "TOGGL_WORKSPACE_ID" (by decide) (by decide)⟩

/-- C10: the dated-copy flag is true exactly when `WRITE_DAILY_COPY` is
unset (default true) or its value, stripped and lowercased, is one of
"1", "true", "yes", "y", "on"; any other set value yields false.  And on
any successful run the number of stored-object descriptors written is two
when the flag is true and one when it is false — a false flag suppresses
the second, date-stamped upsert. -/
theorem c10_dated_copy_flag (env : Env) :
    (env_bool env "WRITE_DAILY_COPY" true = true ↔
      (env "WRITE_DAILY_COPY" = none ∨
       ∃ v, env "WRITE_DAILY_COPY" = some v ∧
         pyLower (pyStrip v) ∈ ["1", "true", "yes", "y", "on"])) ∧
    (∀ todayOrd resp st st2 tr ds,
      runMain env todayOrd resp st = (st2, tr, Except.ok ds) →
      ds.length = if env_bool env "WRITE_DAILY_COPY" true then 2 else 1) := by
  constructor
  · unfold env_bool
    cases h : env "WRITE_DAILY_COPY" with
    | none => simp
    | some v =>
      dsimp only
      constructor
      · intro hc
        right
        exact ⟨v, rfl, by simpa [List.contains, List.elem_iff] using hc⟩
      · rintro (hc | ⟨w, hw, hmem⟩)
        · cases hc
        · injection hw with hw
          subst hw
          simpa [List.contains, List.elem_iff] using hmem
  · intro todayOrd resp st st2 tr ds h
    simp only [runMain] at h
    split at h
    · simp at h
    · split at h
      · simp at h
      · split at h
        · simp at h
        · split at h
          · simp at h
          · split at h
            · simp at h
            · split at h
              · simp at h
              · split at h
                · rename_i hw
                  split at h
                  · simp at h
                  · simp only [Prod.mk.injEq, Except.ok.injEq] at h
                    rw [if_pos hw, ← h.2.2]
                    rfl
                · rename_i hw
                  simp only [Prod.mk.injEq, Except.ok.injEq] at h
                  rw [if_neg hw, ← h.2.2]
                  rfl

/-- C10 witness environment: required keys set, `WRITE_DAILY_COPY` unset, so
the flag defaults to true and a successful run writes two copies. -/
def c10WEnv : Env := fun k =>
  if k = "TOGGL_API_TOKEN" then some "t"
  else if k = "TOGGL_WORKSPACE_ID" then some "w"
  else if k = "GOOGLE_DRIVE_TOKEN" then some "g"
  else none

def c10WDescriptors : List Descriptor :=
  [{ id := 0, name := "toggl_time_entries_latest",
     webViewLink := "https://drive.google.com/file/0" },
   { id := 1, name := "toggl_time_entries_2024-01-01",
     webViewLink := "https://drive.google.com/file/1" }]

def c10WStateOut : DriveState :=
  { files :=
      [{ id := 0, name := "toggl_time_entries_latest", parents := [],
         mimeType := GOOGLE_SHEETS_MIME, content := [65], trashed := false,
         webViewLink := "https://drive.google.com/file/0" },
       { id := 1, name := "toggl_time_entries_2024-01-01", parents := [],
         mimeType := GOOGLE_SHEETS_MIME, content := [65], trashed := false,
         webViewLink := "https://drive.google.com/file/1" }]
    nextId := 2 }

def c10WTrace : List DriveCall :=
  [DriveCall.list (upsertQuery "toggl_time_entries_latest" none),
   DriveCall.create (upsertCreateMetadata "toggl_time_entries_latest" none) [65],
   DriveCall.list (upsertQuery "toggl_time_entries_2024-01-01" none),
   DriveCall.create (upsertCreateMetadata "toggl_time_entries_2024-01-01" none) [65]]

theorem c10_witness :
    c10WDescriptors.length = if env_bool c10WEnv "WRITE_DAILY_COPY" true then 2 else 1 :=
  (c10_dated_copy_flag c10WEnv).2 738886 { status := 200, body := [65] }
    { files := [], nextId := 0 } c10WStateOut c10WTrace c10WDescriptors (by rfl)
